import Mathlib

/-!
A shallow embedding of the ANH Atria Notes Hub backend
(`src/supabase/functions/server/index.tsx`): the key-value Catalog Store,
the Blob Store, and the handlers `getCatalog` (GET /content/:d/:s/:subj),
`addSubject` (POST /subjects), the two upload handlers (POST /upload and
POST /admin/upload) and the admin delete handler
(DELETE /admin/delete/:d/:s/:subj/:fileId), together with theorems about
them.

Conventions of the embedding:
* A form-data field (`formData.get(k) as string`) is `Option String`;
  JavaScript truthiness of such a field is `truthy`: `none` (null) and
  `some ""` are falsy.
* `Date.now()` and `new Date().toISOString()` are passed in as the
  parameters `now : Nat` and `isoNow : String`.
* Outcomes of the external blob store (upload error, remove error) are
  passed in as Boolean parameters: the handler's behaviour is modelled for
  both outcomes.
* The key-value store is an insertion-ordered association list keyed by
  the full key strings the code builds (`subjects_d_s`, `content_d_s_subj`);
  `kv.set` replaces in place or appends.
* An access `content.notes[k].push(...)` on a key `k` absent from `notes`
  throws a TypeError in JavaScript, caught by the handler's `catch` which
  returns a 500; the embedding models this by `Option`: `none` means the
  exception was thrown at that point.
-/

/-- A file record as built by the upload handlers:
`{ id: Date.now().toString(), name: file.name, path: filePath, uploadedAt: ... }`. -/
structure FileRecord where
  id : String
  name : String
  path : String
  uploadedAt : String
deriving DecidableEq, Repr

/-- The per-subject content catalog value stored under `content_d_s_subj`.
`notes` is an insertion-ordered string-keyed object, modelled as an
association list; `Object.keys` iterates it in that order. -/
structure ContentCatalog where
  previousYearPapers : List FileRecord
  iaPapers : List FileRecord
  notes : List (String × List FileRecord)
deriving DecidableEq, Repr

/-- The default catalog built when `kv.get(contentKey)` is null:
`{ previousYearPapers: [], iaPapers: [], notes: { module1: [], ..., module5: [] } }`. -/
def defaultCatalog : ContentCatalog :=
  { previousYearPapers := []
    iaPapers := []
    notes := [("module1", []), ("module2", []), ("module3", []),
              ("module4", []), ("module5", [])] }

/-- Association-list lookup: the value stored at `k`, if any (`kv.get`). -/
def kvGet {V : Type} (store : List (String × V)) (k : String) : Option V :=
  match store with
  | [] => none
  | (k', v) :: rest => if k' = k then some v else kvGet rest k

/-- Association-list upsert (`kv.set`): replace the value at `k` in place,
or append the new pair when `k` is absent. -/
def kvSet {V : Type} (store : List (String × V)) (k : String) (v : V) :
    List (String × V) :=
  match store with
  | [] => [(k, v)]
  | (k', v') :: rest =>
      if k' = k then (k', v) :: rest else (k', v') :: kvSet rest k v

/-- The whole server-visible state: the Catalog Store (one map for
`subjects_*` keys, one for `content_*` keys — the two prefixes never
collide) and the Blob Store mapping storage paths to file bytes. -/
structure ServerState where
  subjects : List (String × List String)
  contents : List (String × ContentCatalog)
  blobs : List (String × String)
deriving DecidableEq, Repr

/-- The empty initial state. -/
def emptyState : ServerState := { subjects := [], contents := [], blobs := [] }

/-- JavaScript truthiness of a nullable string form field:
`null` and `""` are falsy. -/
def truthy : Option String → Bool
  | none => false
  | some s => !(s = "")

/-- The subject-list key `subjects_${department}_${semester}`. -/
def subjectsKey (department semester : String) : String :=
  "subjects_" ++ department ++ "_" ++ semester

/-- The catalog key `content_${department}_${semester}_${subject}`. -/
def contentKey (department semester subject : String) : String :=
  "content_" ++ department ++ "_" ++ semester ++ "_" ++ subject

/-- GET /content/:department/:semester/:subject — returns the stored
catalog or the default; performs no write. -/
def getCatalog (department semester subject : String) (st : ServerState) :
    ContentCatalog × ServerState :=
  let key := contentKey department semester subject
  let content := (kvGet st.contents key).getD defaultCatalog
  (content, st)

/-- Result of POST /subjects. -/
inductive AddSubjectResult where
  | badRequest   -- 400 Missing required fields
  | ok           -- 200 Subject added successfully
deriving DecidableEq, Repr

/-- POST /subjects: validates the three fields, then appends the subject
to the subject list when absent. -/
def addSubject (department semester subject : Option String)
    (st : ServerState) : AddSubjectResult × ServerState :=
  if !truthy department || !truthy semester || !truthy subject then
    (.badRequest, st)
  else
    let d := department.getD ""
    let s := semester.getD ""
    let subj := subject.getD ""
    let key := subjectsKey d s
    let existingSubjects := (kvGet st.subjects key).getD []
    if subj ∈ existingSubjects then
      (.ok, st)
    else
      (.ok, { st with subjects := kvSet st.subjects key (existingSubjects ++ [subj]) })

/-- An uploaded file: `file.name` and its bytes. -/
structure UFile where
  name : String
  content : String
deriving DecidableEq, Repr

/-- Result of an upload handler. -/
inductive UploadResult where
  | badRequest                -- 400 Missing required fields
  | uploadFailed              -- 500 Failed to upload file
  | serverError               -- 500 Internal server error (caught exception)
  | ok (record : FileRecord)  -- 200 with the file record
deriving DecidableEq, Repr

/-- `existingContent.notes[k].push(r)`: appends `r` to the list at key `k`;
`none` when `k` is not a key of `notes` (the `.push` on `undefined` throws). -/
def notesPush (k : String) (r : FileRecord) :
    List (String × List FileRecord) → Option (List (String × List FileRecord))
  | [] => none
  | (k', l) :: rest =>
      if k' = k then some ((k', l ++ [r]) :: rest)
      else (notesPush k r rest).map (fun rest2 => (k', l) :: rest2)

/-- The `if/else if` chain dispatching the new record into the catalog:
`previousYearPaper` and `iaPaper` append to their list; `notes` with a
truthy module pushes into `notes[module{m}]` (which can throw, i.e. return
`none`); any other combination leaves the catalog value unchanged. -/
def dispatchRecord (contentType : String) (moduleField : Option String)
    (r : FileRecord) (c : ContentCatalog) : Option ContentCatalog :=
  if contentType = "previousYearPaper" then
    some { c with previousYearPapers := c.previousYearPapers ++ [r] }
  else if contentType = "iaPaper" then
    some { c with iaPapers := c.iaPapers ++ [r] }
  else if contentType = "notes" && truthy moduleField then
    (notesPush ("module" ++ moduleField.getD "") r c.notes).map
      (fun ns => { c with notes := ns })
  else
    some c

/-- The storage path
`${department}/${semester}/${subject}/${contentType}/${module ? `module${module}/` : ''}${fileName}`
with `fileName = ${Date.now()}_${file.name}`. -/
def buildFilePath (department semester subject contentType : String)
    (moduleField : Option String) (now : Nat) (fileName : String) : String :=
  department ++ "/" ++ semester ++ "/" ++ subject ++ "/" ++ contentType ++ "/" ++
    (if truthy moduleField then "module" ++ moduleField.getD "" ++ "/" else "") ++
    toString now ++ "_" ++ fileName

/-- POST /make-server-fd1978ca/upload (the compatibility route, lines
179-245): validate, build the path, write the blob, register the subject,
then dispatch the record into the catalog and write the catalog back. -/
def uploadHandler (now : Nat) (isoNow : String) (blobErr : Bool)
    (file : Option UFile) (department semester subject contentType moduleField : Option String)
    (st : ServerState) : UploadResult × ServerState :=
  match file with
  | none => (.badRequest, st)
  | some f =>
    if !truthy department || !truthy semester || !truthy subject || !truthy contentType then
      (.badRequest, st)
    else
      let dept := department.getD ""
      let sem := semester.getD ""
      let subj := subject.getD ""
      let ct := contentType.getD ""
      let filePath := buildFilePath dept sem subj ct moduleField now f.name
      if blobErr then
        (.uploadFailed, st)
      else
        let st1 := { st with blobs := kvSet st.blobs filePath f.content }
        let sKey := subjectsKey dept sem
        let existingSubjects := (kvGet st1.subjects sKey).getD []
        let st2 :=
          if subj ∈ existingSubjects then st1
          else { st1 with subjects := kvSet st1.subjects sKey (existingSubjects ++ [subj]) }
        let cKey := contentKey dept sem subj
        let existingContent := (kvGet st2.contents cKey).getD defaultCatalog
        let fileRecord : FileRecord :=
          { id := toString now, name := f.name, path := filePath, uploadedAt := isoNow }
        match dispatchRecord ct moduleField fileRecord existingContent with
        | none => (.serverError, st2)
        | some newContent =>
            (.ok fileRecord, { st2 with contents := kvSet st2.contents cKey newContent })

/-- POST /make-server-fd1978ca/admin/upload (lines 248-314): validate,
build the path, write the blob, register the subject, then dispatch the
record into the catalog and write the catalog back. -/
def adminUploadHandler (now : Nat) (isoNow : String) (blobErr : Bool)
    (file : Option UFile) (department semester subject contentType moduleField : Option String)
    (st : ServerState) : UploadResult × ServerState :=
  match file with
  | none => (.badRequest, st)
  | some f =>
    if !truthy department || !truthy semester || !truthy subject || !truthy contentType then
      (.badRequest, st)
    else
      let dept := department.getD ""
      let sem := semester.getD ""
      let subj := subject.getD ""
      let ct := contentType.getD ""
      let filePath := buildFilePath dept sem subj ct moduleField now f.name
      if blobErr then
        (.uploadFailed, st)
      else
        let st1 := { st with blobs := kvSet st.blobs filePath f.content }
        let sKey := subjectsKey dept sem
        let existingSubjects := (kvGet st1.subjects sKey).getD []
        let st2 :=
          if subj ∈ existingSubjects then st1
          else { st1 with subjects := kvSet st1.subjects sKey (existingSubjects ++ [subj]) }
        let cKey := contentKey dept sem subj
        let existingContent := (kvGet st2.contents cKey).getD defaultCatalog
        let fileRecord : FileRecord :=
          { id := toString now, name := f.name, path := filePath, uploadedAt := isoNow }
        match dispatchRecord ct moduleField fileRecord existingContent with
        | none => (.serverError, st2)
        | some newContent =>
            (.ok fileRecord, { st2 with contents := kvSet st2.contents cKey newContent })

/-- Result of DELETE /admin/delete/:department/:semester/:subject/:fileId. -/
inductive DeleteResult where
  | contentNotFound  -- 404 Content not found
  | fileNotFound     -- 404 File not found
  | ok               -- 200 File deleted successfully
deriving DecidableEq, Repr

/-- The notes part of the delete search (lines 474-486): iterate modules in
`Object.keys` order; in the first module whose list contains the id, the
first matching record is the one to delete and that module's list is
filtered; later modules are not visited, earlier ones are unchanged. -/
def notesFindRemove (fileId : String) :
    List (String × List FileRecord) →
    Option (FileRecord × List (String × List FileRecord))
  | [] => none
  | (k, l) :: rest =>
      match l.find? (fun r => r.id = fileId) with
      | some r => some (r, (k, l.filter (fun n => !(n.id = fileId))) :: rest)
      | none => (notesFindRemove fileId rest).map
          (fun p => (p.1, (k, l) :: p.2))

/-- The search-and-remove of the admin delete handler (lines 454-486):
`previousYearPapers` first, then `iaPapers`, then the notes modules; the
first record whose id matches is `fileToDelete` and its list is filtered
by `id !== fileId`. `none` when no list contains the id. -/
def findAndRemove (fileId : String) (c : ContentCatalog) :
    Option (FileRecord × ContentCatalog) :=
  match c.previousYearPapers.find? (fun r => r.id = fileId) with
  | some r =>
      some (r, { c with previousYearPapers :=
                  c.previousYearPapers.filter (fun p => !(p.id = fileId)) })
  | none =>
    match c.iaPapers.find? (fun r => r.id = fileId) with
    | some r =>
        some (r, { c with iaPapers := c.iaPapers.filter (fun p => !(p.id = fileId)) })
    | none =>
        (notesFindRemove fileId c.notes).map
          (fun p => (p.1, { c with notes := p.2 }))

/-- DELETE /admin/delete/:department/:semester/:subject/:fileId (lines
436-509): look up the catalog (404 when the key is absent), search the
three groups in order (404 when no record matches), best-effort delete the
blob (`removeErr` = the storage remove failed; the error is only logged),
then write the updated catalog back and report success. -/
def adminDeleteHandler (removeErr : Bool)
    (department semester subject fileId : String) (st : ServerState) :
    DeleteResult × ServerState :=
  let cKey := contentKey department semester subject
  match kvGet st.contents cKey with
  | none => (.contentNotFound, st)
  | some content =>
    match findAndRemove fileId content with
    | none => (.fileNotFound, st)
    | some (fileToDelete, updated) =>
        let blobs2 :=
          if removeErr then st.blobs
          else st.blobs.filter (fun p => !(p.1 = fileToDelete.path))
        (.ok, { st with blobs := blobs2, contents := kvSet st.contents cKey updated })

/-- The file id occurs somewhere in the catalog's lists. -/
def idInCatalog (fileId : String) (c : ContentCatalog) : Bool :=
  c.previousYearPapers.any (fun r => r.id = fileId) ||
  c.iaPapers.any (fun r => r.id = fileId) ||
  c.notes.any (fun p => p.2.any (fun r => r.id = fileId))

/-- The record sequence in the order the delete handler searches it:
`previousYearPapers`, then `iaPapers`, then each module's notes in
`Object.keys` order. -/
def traversalOrder (c : ContentCatalog) : List FileRecord :=
  c.previousYearPapers ++ c.iaPapers ++ (c.notes.map Prod.snd).flatten

/-- Number of records in the catalog whose id is `fileId`. -/
def countId (fileId : String) (c : ContentCatalog) : Nat :=
  c.previousYearPapers.countP (fun r => r.id = fileId) +
  c.iaPapers.countP (fun r => r.id = fileId) +
  (c.notes.map (fun p => p.2.countP (fun r => r.id = fileId))).sum

/-- Total number of records in the catalog. -/
def catalogSize (c : ContentCatalog) : Nat :=
  c.previousYearPapers.length + c.iaPapers.length +
  (c.notes.map (fun p => p.2.length)).sum

/-- The catalog with every record of id `fileId` removed from every bucket,
all other records kept in place and in order. -/
def eraseId (fileId : String) (c : ContentCatalog) : ContentCatalog :=
  { previousYearPapers := c.previousYearPapers.filter (fun r => !(r.id = fileId))
    iaPapers := c.iaPapers.filter (fun r => !(r.id = fileId))
    notes := c.notes.map (fun p => (p.1, p.2.filter (fun r => !(r.id = fileId)))) }

/-- A sample record for concrete instantiations. -/
def sampleRec : FileRecord :=
  { id := "7", name := "a.pdf", path := "CSE/3/DS/previousYearPaper/7_a.pdf",
    uploadedAt := "T" }

/-- A sample catalog holding just `sampleRec`. -/
def sampleCat : ContentCatalog :=
  { previousYearPapers := [sampleRec], iaPapers := [], notes := [] }

/-- `sampleCat` with the record removed. -/
def sampleCatErased : ContentCatalog :=
  { previousYearPapers := [], iaPapers := [], notes := [] }

/-- A sample server state storing `sampleCat` and its blob. -/
def sampleState : ServerState :=
  { subjects := []
    contents := [("content_CSE_3_DS", sampleCat)]
    blobs := [(sampleRec.path, "B")] }

/-- A sample notes record for concrete instantiations. -/
def noteRec : FileRecord :=
  { id := "5", name := "n.pdf", path := "CSE/3/DS/notes/module3/5_n.pdf",
    uploadedAt := "T" }

/-- The default catalog with `noteRec` pushed into module3. -/
def noteCat : ContentCatalog :=
  { previousYearPapers := []
    iaPapers := []
    notes := [("module1", []), ("module2", []), ("module3", [noteRec]),
              ("module4", []), ("module5", [])] }

/-- The server state after uploading `noteRec` from the empty state. -/
def noteState : ServerState :=
  { subjects := [("subjects_CSE_3", ["DS"])]
    contents := [("content_CSE_3_DS", noteCat)]
    blobs := [("CSE/3/DS/notes/module3/5_n.pdf", "B")] }

/-! ## Helper lemmas -/

/-- `kv.set` followed by `kv.get` at the same key yields the written value. -/
theorem kvGet_kvSet_self {V : Type} (store : List (String × V)) (k : String) (v : V) :
    kvGet (kvSet store k v) k = some v := by
  induction store with
  | nil => simp [kvSet, kvGet]
  | cons p rest ih =>
      obtain ⟨k', v'⟩ := p
      by_cases h : k' = k <;> simp [kvSet, kvGet, h, ih]

/-- `truthy` on a null field. -/
theorem truthy_none : truthy none = false := rfl

/-- `truthy` on a present field. -/
theorem truthy_some (s : String) : truthy (some s) = !(s = "") := rfl

/-! ## Claim theorems -/

/-- C9: the handlers for POST /upload and POST /admin/upload are the same
function: for every request, oracle outcome and initial state they validate,
write and respond identically. -/
theorem uploadHandler_eq_adminUploadHandler : uploadHandler = adminUploadHandler := rfl

/-- C2: for a (department, semester, subject) whose catalog key was never
written, `getCatalog` returns the zero-value catalog — empty lists and the
five module buckets module1..module5 all empty — and leaves the whole
server state (in particular the Catalog Store) unchanged. -/
theorem getCatalog_missing_returns_default (department semester subject : String)
    (st : ServerState)
    (h : kvGet st.contents (contentKey department semester subject) = none) :
    (getCatalog department semester subject st).1.previousYearPapers = [] ∧
    (getCatalog department semester subject st).1.iaPapers = [] ∧
    (getCatalog department semester subject st).1.notes =
      [("module1", []), ("module2", []), ("module3", []),
       ("module4", []), ("module5", [])] ∧
    (getCatalog department semester subject st).2 = st := by
  refine ⟨?_, ?_, ?_, rfl⟩ <;> simp [getCatalog, h, defaultCatalog]

/-- C2 witness. -/
theorem getCatalog_missing_returns_default_witness :
    (getCatalog "CSE" "3" "DS" emptyState).1.previousYearPapers = [] ∧
    (getCatalog "CSE" "3" "DS" emptyState).1.iaPapers = [] ∧
    (getCatalog "CSE" "3" "DS" emptyState).1.notes =
      [("module1", []), ("module2", []), ("module3", []),
       ("module4", []), ("module5", [])] ∧
    (getCatalog "CSE" "3" "DS" emptyState).2 = emptyState :=
  getCatalog_missing_returns_default "CSE" "3" "DS" emptyState rfl

/-- C5: `addSubject` is idempotent — a repeated identical call leaves the
state unchanged, and two identical calls from the empty state leave the
subject list at the key holding the subject exactly once. -/
theorem addSubject_idempotent (department semester subject : Option String)
    (st : ServerState)
    (hd : truthy department = true) (hs : truthy semester = true)
    (hj : truthy subject = true) :
    (addSubject department semester subject
        (addSubject department semester subject st).2).2 =
      (addSubject department semester subject st).2 ∧
    kvGet (addSubject department semester subject
        (addSubject department semester subject emptyState).2).2.subjects
        (subjectsKey (department.getD "") (semester.getD "")) =
      some [subject.getD ""] := by
  constructor
  · by_cases hmem : (subject.getD "") ∈
        ((kvGet st.subjects
          (subjectsKey (department.getD "") (semester.getD ""))).getD [])
    · simp [addSubject, hd, hs, hj, hmem]
    · simp [addSubject, hd, hs, hj, hmem, kvGet_kvSet_self]
  · simp [addSubject, hd, hs, hj, emptyState, kvGet, kvGet_kvSet_self]

/-- C5 witness. -/
theorem addSubject_idempotent_witness :
    (addSubject (some "CSE") (some "3") (some "DS")
        (addSubject (some "CSE") (some "3") (some "DS") emptyState).2).2 =
      (addSubject (some "CSE") (some "3") (some "DS") emptyState).2 ∧
    kvGet (addSubject (some "CSE") (some "3") (some "DS")
        (addSubject (some "CSE") (some "3") (some "DS") emptyState).2).2.subjects
        (subjectsKey ((some "CSE").getD "") ((some "3").getD "")) =
      some [(some "DS").getD ""] :=
  addSubject_idempotent (some "CSE") (some "3") (some "DS") emptyState rfl rfl rfl

/-- The notes search finds nothing when no module list holds the id. -/
theorem notesFindRemove_eq_none (fileId : String)
    (ns : List (String × List FileRecord))
    (h : ns.any (fun p => p.2.any (fun r => r.id = fileId)) = false) :
    notesFindRemove fileId ns = none := by
  induction ns with
  | nil => rfl
  | cons p rest ih =>
      obtain ⟨k, l⟩ := p
      simp only [List.any_cons, Bool.or_eq_false_iff] at h
      have hfind : l.find? (fun r => r.id = fileId) = none := by
        rw [List.find?_eq_none]
        intro x hx
        simpa using (List.any_eq_false.mp h.1) x hx
      simp [notesFindRemove, hfind, ih h.2]

/-- The full search finds nothing when the id occurs in no list. -/
theorem findAndRemove_eq_none (fileId : String) (c : ContentCatalog)
    (h : idInCatalog fileId c = false) :
    findAndRemove fileId c = none := by
  simp only [idInCatalog, Bool.or_eq_false_iff] at h
  have h1 : c.previousYearPapers.find? (fun r => r.id = fileId) = none := by
    rw [List.find?_eq_none]
    intro x hx
    simpa using (List.any_eq_false.mp h.1.1) x hx
  have h2 : c.iaPapers.find? (fun r => r.id = fileId) = none := by
    rw [List.find?_eq_none]
    intro x hx
    simpa using (List.any_eq_false.mp h.1.2) x hx
  simp [findAndRemove, h1, h2, notesFindRemove_eq_none fileId c.notes h.2]

/-- C3: for a fileId occurring in none of the stored catalog's lists (or
with no catalog stored at all), the admin delete returns a 404 and the
whole server state — Catalog Store and Blob Store — is unchanged. -/
theorem adminDelete_notFound (removeErr : Bool)
    (department semester subject fileId : String) (st : ServerState)
    (h : ∀ c, kvGet st.contents (contentKey department semester subject) = some c →
        idInCatalog fileId c = false) :
    ((adminDeleteHandler removeErr department semester subject fileId st).1 =
        DeleteResult.contentNotFound ∨
     (adminDeleteHandler removeErr department semester subject fileId st).1 =
        DeleteResult.fileNotFound) ∧
    (adminDeleteHandler removeErr department semester subject fileId st).2 = st := by
  unfold adminDeleteHandler
  cases hc : kvGet st.contents (contentKey department semester subject) with
  | none => simp [hc]
  | some c => simp [hc, findAndRemove_eq_none fileId c (h c hc)]

/-- C3 witness. -/
theorem adminDelete_notFound_witness :
    (((adminDeleteHandler false "CSE" "3" "DS" "42" emptyState).1 =
        DeleteResult.contentNotFound ∨
      (adminDeleteHandler false "CSE" "3" "DS" "42" emptyState).1 =
        DeleteResult.fileNotFound) ∧
     (adminDeleteHandler false "CSE" "3" "DS" "42" emptyState).2 = emptyState) :=
  adminDelete_notFound false "CSE" "3" "DS" "42" emptyState
    (fun c hc => by simp [emptyState, kvGet] at hc)

/-- `find?` over an append takes the first list's match first. -/
theorem find?_append {α : Type} (p : α → Bool) (l₁ l₂ : List α) :
    (l₁ ++ l₂).find? p = ((l₁.find? p).or (l₂.find? p)) := by
  induction l₁ with
  | nil => simp
  | cons a l ih => by_cases h : p a <;> simp [List.find?, h, ih]

/-- The record the notes search returns is the first match in the
concatenation of the module lists in key order. -/
theorem notesFindRemove_fst (fileId : String)
    (ns : List (String × List FileRecord)) :
    (notesFindRemove fileId ns).map Prod.fst =
      ((ns.map Prod.snd).flatten).find? (fun r => r.id = fileId) := by
  induction ns with
  | nil => simp [notesFindRemove]
  | cons p rest ih =>
      obtain ⟨k, l⟩ := p
      cases hf : l.find? (fun r => r.id = fileId) with
      | some r => simp [notesFindRemove, hf, find?_append]
      | none =>
          simp only [notesFindRemove, hf, List.map_cons, List.flatten_cons,
            find?_append, Option.map_map, Option.none_or]
          rw [← ih]
          rfl

/-- C6: the record the admin delete removes (and whose blob it deletes) is
the first record with the given id in the traversal
previousYearPapers, iaPapers, then each module's notes, in that fixed
order — the search stops at the first match. -/
theorem findAndRemove_first_match (fileId : String) (c : ContentCatalog) :
    (findAndRemove fileId c).map Prod.fst =
      (traversalOrder c).find? (fun r => r.id = fileId) := by
  unfold findAndRemove traversalOrder
  cases h1 : c.previousYearPapers.find? (fun r => r.id = fileId) with
  | some r => simp [find?_append, h1]
  | none =>
    cases h2 : c.iaPapers.find? (fun r => r.id = fileId) with
    | some r => simp [find?_append, h1, h2]
    | none =>
        simp only [h1, h2, find?_append, Option.none_or, Option.map_map]
        rw [← notesFindRemove_fst]
        rfl

/-- C7: when the record is found, a failed Blob Store delete is ignored —
the catalog update proceeds identically and the handler reports success;
only the Blob Store differs (the blob dangles on failure). -/
theorem adminDelete_blob_failure_ignored
    (department semester subject fileId : String) (st : ServerState)
    (c : ContentCatalog) (r : FileRecord) (updated : ContentCatalog)
    (hc : kvGet st.contents (contentKey department semester subject) = some c)
    (hf : findAndRemove fileId c = some (r, updated)) :
    adminDeleteHandler true department semester subject fileId st =
      (DeleteResult.ok,
        { st with
            contents := kvSet st.contents (contentKey department semester subject) updated }) ∧
    adminDeleteHandler false department semester subject fileId st =
      (DeleteResult.ok,
        { st with
            blobs := st.blobs.filter (fun p => !(p.1 = r.path)),
            contents := kvSet st.contents (contentKey department semester subject) updated }) := by
  constructor <;> simp [adminDeleteHandler, hc, hf]

/-- C7 witness. -/
theorem adminDelete_blob_failure_ignored_witness :
    adminDeleteHandler true "CSE" "3" "DS" "7" sampleState =
      (DeleteResult.ok,
        { sampleState with
            contents := kvSet sampleState.contents (contentKey "CSE" "3" "DS")
              sampleCatErased }) ∧
    adminDeleteHandler false "CSE" "3" "DS" "7" sampleState =
      (DeleteResult.ok,
        { sampleState with
            blobs := sampleState.blobs.filter (fun p => !(p.1 = sampleRec.path)),
            contents := kvSet sampleState.contents (contentKey "CSE" "3" "DS")
              sampleCatErased }) :=
  adminDelete_blob_failure_ignored "CSE" "3" "DS" "7" sampleState
    sampleCat sampleRec sampleCatErased (by decide) (by decide)

/-- A list with no record of the id is unchanged by the erasing filter. -/
theorem filter_not_id_of_countP_zero (fileId : String) (l : List FileRecord)
    (h : l.countP (fun r => r.id = fileId) = 0) :
    l.filter (fun r => !(r.id = fileId)) = l := by
  rw [List.filter_eq_self]
  intro a ha
  have := List.countP_eq_zero.mp h a ha
  simpa using this

/-- A list the search misses holds no record of the id. -/
theorem countP_zero_of_find?_none (fileId : String) (l : List FileRecord)
    (h : l.find? (fun r => r.id = fileId) = none) :
    l.countP (fun r => r.id = fileId) = 0 := by
  rw [List.countP_eq_zero]
  intro a ha
  have := List.find?_eq_none.mp h a ha
  simpa using this

/-- A list the search hits holds at least one record of the id. -/
theorem countP_pos_of_find?_some (fileId : String) (l : List FileRecord)
    (r : FileRecord) (h : l.find? (fun x => x.id = fileId) = some r) :
    0 < l.countP (fun x => x.id = fileId) := by
  rw [List.countP_pos_iff]
  have hp := List.find?_some h
  exact ⟨r, List.mem_of_find?_eq_some h, hp⟩

/-- Module lists holding no record of the id are unchanged by erasure. -/
theorem notes_map_filter_self (fileId : String)
    (ns : List (String × List FileRecord))
    (h : (ns.map (fun p => p.2.countP (fun r => r.id = fileId))).sum = 0) :
    ns.map (fun p => (p.1, p.2.filter (fun r => !(r.id = fileId)))) = ns := by
  induction ns with
  | nil => rfl
  | cons p rest ih =>
      simp only [List.map_cons, List.sum_cons, Nat.add_eq_zero] at h
      simp [filter_not_id_of_countP_zero fileId p.2 h.1, ih h.2]

/-- With exactly one occurrence of the id across the module lists, the
notes search produces the fully erased notes mapping. -/
theorem notesFindRemove_snd (fileId : String)
    (ns : List (String × List FileRecord))
    (h : (ns.map (fun p => p.2.countP (fun r => r.id = fileId))).sum = 1) :
    (notesFindRemove fileId ns).map Prod.snd =
      some (ns.map (fun p => (p.1, p.2.filter (fun r => !(r.id = fileId))))) := by
  induction ns with
  | nil => simp at h
  | cons p rest ih =>
      obtain ⟨k, l⟩ := p
      simp only [List.map_cons, List.sum_cons] at h
      cases hf : l.find? (fun r => r.id = fileId) with
      | some r =>
          have hpos := countP_pos_of_find?_some fileId l r hf
          have hrest : (rest.map (fun p => p.2.countP (fun r => r.id = fileId))).sum = 0 := by
            omega
          simp [notesFindRemove, hf, notes_map_filter_self fileId rest hrest]
      | none =>
          have hzero := countP_zero_of_find?_none fileId l hf
          have hrest : (rest.map (fun p => p.2.countP (fun r => r.id = fileId))).sum = 1 := by
            omega
          obtain ⟨a, ha, hsnd⟩ := Option.map_eq_some'.mp (ih hrest)
          simp [notesFindRemove, hf, ha, hsnd,
            filter_not_id_of_countP_zero fileId l hzero]

/-- With exactly one occurrence of the id in the whole catalog, the
search-and-remove produces exactly the erased catalog. -/
theorem findAndRemove_snd_eq_eraseId (fileId : String) (c : ContentCatalog)
    (h : countId fileId c = 1) :
    (findAndRemove fileId c).map Prod.snd = some (eraseId fileId c) := by
  unfold countId at h
  unfold findAndRemove eraseId
  cases h1 : c.previousYearPapers.find? (fun r => r.id = fileId) with
  | some r =>
      have hpos := countP_pos_of_find?_some fileId c.previousYearPapers r h1
      have hia : c.iaPapers.countP (fun r => r.id = fileId) = 0 := by omega
      have hns : (c.notes.map (fun p => p.2.countP (fun r => r.id = fileId))).sum = 0 := by
        omega
      have hpy : c.previousYearPapers.countP (fun r => r.id = fileId) = 1 := by omega
      simp [filter_not_id_of_countP_zero fileId c.iaPapers hia,
        notes_map_filter_self fileId c.notes hns]
  | none =>
      have hz1 := countP_zero_of_find?_none fileId c.previousYearPapers h1
      cases h2 : c.iaPapers.find? (fun r => r.id = fileId) with
      | some r =>
          have hpos := countP_pos_of_find?_some fileId c.iaPapers r h2
          have hns : (c.notes.map (fun p => p.2.countP (fun r => r.id = fileId))).sum = 0 := by
            omega
          simp [filter_not_id_of_countP_zero fileId c.previousYearPapers hz1,
            notes_map_filter_self fileId c.notes hns]
      | none =>
          have hz2 := countP_zero_of_find?_none fileId c.iaPapers h2
          have hns : (c.notes.map (fun p => p.2.countP (fun r => r.id = fileId))).sum = 1 := by
            omega
          obtain ⟨a, ha, hsnd⟩ :=
            Option.map_eq_some'.mp (notesFindRemove_snd fileId c.notes hns)
          simp [ha, hsnd, filter_not_id_of_countP_zero fileId c.previousYearPapers hz1,
            filter_not_id_of_countP_zero fileId c.iaPapers hz2]

/-- Erasing an id shortens a list by its number of occurrences. -/
theorem length_filter_not_id (fileId : String) (l : List FileRecord) :
    (l.filter (fun r => !(r.id = fileId))).length +
      l.countP (fun r => r.id = fileId) = l.length := by
  induction l with
  | nil => rfl
  | cons a t ih =>
      by_cases h : a.id = fileId <;>
        simp [List.filter_cons, List.countP_cons, h] <;> omega

/-- Erasing an id shortens the notes mapping by its occurrence count. -/
theorem notes_length_filter (fileId : String)
    (ns : List (String × List FileRecord)) :
    ((ns.map (fun p => (p.1, p.2.filter (fun r => !(r.id = fileId))))).map
        (fun p => p.2.length)).sum +
      (ns.map (fun p => p.2.countP (fun r => r.id = fileId))).sum =
      (ns.map (fun p => p.2.length)).sum := by
  induction ns with
  | nil => rfl
  | cons p rest ih =>
      simp only [List.map_cons, List.sum_cons]
      have := length_filter_not_id fileId p.2
      omega

/-- Erasing an id shortens the catalog by its occurrence count. -/
theorem catalogSize_eraseId (fileId : String) (c : ContentCatalog) :
    catalogSize (eraseId fileId c) + countId fileId c = catalogSize c := by
  simp only [catalogSize, eraseId, countId]
  have h1 := length_filter_not_id fileId c.previousYearPapers
  have h2 := length_filter_not_id fileId c.iaPapers
  have h3 := notes_length_filter fileId c.notes
  omega

/-- C4: when the stored catalog holds exactly one record with the given id,
the admin delete succeeds, stores back exactly the catalog with that record
erased — every bucket of the stored result is the original bucket with only
records of that id removed, all others kept in place — and the total record
count drops by exactly one. -/
theorem adminDelete_removes_exactly_one (removeErr : Bool)
    (department semester subject fileId : String) (st : ServerState)
    (c : ContentCatalog)
    (hc : kvGet st.contents (contentKey department semester subject) = some c)
    (hcount : countId fileId c = 1) :
    (adminDeleteHandler removeErr department semester subject fileId st).1 =
      DeleteResult.ok ∧
    kvGet (adminDeleteHandler removeErr department semester subject fileId st).2.contents
        (contentKey department semester subject) = some (eraseId fileId c) ∧
    catalogSize (eraseId fileId c) + 1 = catalogSize c := by
  obtain ⟨a, ha, hsnd⟩ :=
    Option.map_eq_some'.mp (findAndRemove_snd_eq_eraseId fileId c hcount)
  obtain ⟨r, upd⟩ := a
  have hupd : upd = eraseId fileId c := hsnd
  refine ⟨?_, ?_, ?_⟩
  · simp [adminDeleteHandler, hc, ha]
  · simp [adminDeleteHandler, hc, ha, hupd, kvGet_kvSet_self]
  · have := catalogSize_eraseId fileId c
    omega

/-- C4 witness. -/
theorem adminDelete_removes_exactly_one_witness :
    (adminDeleteHandler false "CSE" "3" "DS" "7" sampleState).1 =
      DeleteResult.ok ∧
    kvGet (adminDeleteHandler false "CSE" "3" "DS" "7" sampleState).2.contents
        (contentKey "CSE" "3" "DS") = some (eraseId "7" sampleCat) ∧
    catalogSize (eraseId "7" sampleCat) + 1 = catalogSize sampleCat :=
  adminDelete_removes_exactly_one false "CSE" "3" "DS" "7" sampleState sampleCat
    (by decide) (by decide)

/-- C1 counterexample: an admin upload with contentType = notes and no
module parameter, against the empty state, does not fail validation — it
succeeds, writes the file bytes to the Blob Store, and writes both the
SubjectList key and the ContentCatalog key of the Catalog Store. -/
theorem adminUpload_notes_without_module_counterexample :
    (adminUploadHandler 1000 "T" false (some { name := "a.pdf", content := "B" })
        (some "CSE") (some "3") (some "DS") (some "notes") none emptyState).1 ≠
      UploadResult.badRequest ∧
    (adminUploadHandler 1000 "T" false (some { name := "a.pdf", content := "B" })
        (some "CSE") (some "3") (some "DS") (some "notes") none emptyState).2.blobs ≠
      emptyState.blobs ∧
    (adminUploadHandler 1000 "T" false (some { name := "a.pdf", content := "B" })
        (some "CSE") (some "3") (some "DS") (some "notes") none emptyState).2.subjects ≠
      emptyState.subjects ∧
    (adminUploadHandler 1000 "T" false (some { name := "a.pdf", content := "B" })
        (some "CSE") (some "3") (some "DS") (some "notes") none emptyState).2.contents ≠
      emptyState.contents := by
  decide

/-- C1 (amended): an admin upload with contentType = notes and a missing
(falsy) module passes validation and reports success; the bytes are written
to the Blob Store at a path with no module segment; the catalog value
written back to the Catalog Store is exactly the value read (or the default
when the key was absent) — no record is appended to any bucket, so the
returned FileRecord is dangling. -/
theorem adminUpload_notes_without_module (now : Nat) (isoNow : String)
    (f : UFile) (department semester subject moduleField : Option String)
    (st : ServerState)
    (hd : truthy department = true) (hs : truthy semester = true)
    (hj : truthy subject = true) (hm : truthy moduleField = false) :
    (adminUploadHandler now isoNow false (some f) department semester subject
        (some "notes") moduleField st).1 =
      UploadResult.ok
        { id := toString now, name := f.name,
          path := buildFilePath (department.getD "") (semester.getD "")
            (subject.getD "") "notes" none now f.name,
          uploadedAt := isoNow } ∧
    (adminUploadHandler now isoNow false (some f) department semester subject
        (some "notes") moduleField st).2.blobs =
      kvSet st.blobs
        (buildFilePath (department.getD "") (semester.getD "") (subject.getD "")
          "notes" none now f.name) f.content ∧
    (adminUploadHandler now isoNow false (some f) department semester subject
        (some "notes") moduleField st).2.contents =
      kvSet st.contents
        (contentKey (department.getD "") (semester.getD "") (subject.getD ""))
        ((kvGet st.contents
          (contentKey (department.getD "") (semester.getD "") (subject.getD ""))).getD
            defaultCatalog) ∧
    (adminUploadHandler now isoNow false (some f) department semester subject
        (some "notes") moduleField st).2.subjects =
      (if (subject.getD "") ∈
          ((kvGet st.subjects
            (subjectsKey (department.getD "") (semester.getD ""))).getD []) then
        st.subjects
      else
        kvSet st.subjects (subjectsKey (department.getD "") (semester.getD ""))
          (((kvGet st.subjects
            (subjectsKey (department.getD "") (semester.getD ""))).getD []) ++
              [subject.getD ""])) ∧
    (subject.getD "") ∈
      ((kvGet (adminUploadHandler now isoNow false (some f) department semester
          subject (some "notes") moduleField st).2.subjects
        (subjectsKey (department.getD "") (semester.getD ""))).getD []) := by
  by_cases hmem : (subject.getD "") ∈
      ((kvGet st.subjects
        (subjectsKey (department.getD "") (semester.getD ""))).getD []) <;>
    refine ⟨?_, ?_, ?_, ?_, ?_⟩ <;>
      simp [adminUploadHandler, dispatchRecord, buildFilePath, hd, hs, hj, hm,
        hmem, truthy_none, truthy_some, kvGet_kvSet_self]

/-- C1 (amended) witness. -/
theorem adminUpload_notes_without_module_witness :
    (adminUploadHandler 1000 "T" false (some { name := "a.pdf", content := "B" })
        (some "CSE") (some "3") (some "DS") (some "notes") none emptyState).1 =
      UploadResult.ok
        { id := "1000", name := "a.pdf", path := "CSE/3/DS/notes/1000_a.pdf",
          uploadedAt := "T" } ∧
    (adminUploadHandler 1000 "T" false (some { name := "a.pdf", content := "B" })
        (some "CSE") (some "3") (some "DS") (some "notes") none emptyState).2.blobs =
      [("CSE/3/DS/notes/1000_a.pdf", "B")] ∧
    (adminUploadHandler 1000 "T" false (some { name := "a.pdf", content := "B" })
        (some "CSE") (some "3") (some "DS") (some "notes") none emptyState).2.contents =
      [("content_CSE_3_DS", defaultCatalog)] ∧
    (adminUploadHandler 1000 "T" false (some { name := "a.pdf", content := "B" })
        (some "CSE") (some "3") (some "DS") (some "notes") none emptyState).2.subjects =
      [("subjects_CSE_3", ["DS"])] ∧
    "DS" ∈
      ((kvGet (adminUploadHandler 1000 "T" false
          (some { name := "a.pdf", content := "B" }) (some "CSE") (some "3")
          (some "DS") (some "notes") none emptyState).2.subjects
        (subjectsKey "CSE" "3")).getD []) := by
  exact adminUpload_notes_without_module 1000 "T" { name := "a.pdf", content := "B" }
    (some "CSE") (some "3") (some "DS") none emptyState rfl rfl rfl rfl

/-- C8 counterexample: supplying a module value together with contentType =
previousYearPaper still inserts the module segment into the storage path, so
the segment does not appear only when contentType = notes. -/
theorem adminUpload_path_counterexample :
    (adminUploadHandler 1000 "T" false (some { name := "exam.pdf", content := "B" })
        (some "CSE") (some "3") (some "DS") (some "previousYearPaper") (some "2")
        emptyState).1 =
      UploadResult.ok
        { id := "1000", name := "exam.pdf",
          path := "CSE/3/DS/previousYearPaper/module2/1000_exam.pdf",
          uploadedAt := "T" } ∧
    "CSE/3/DS/previousYearPaper/module2/1000_exam.pdf" ≠
      "CSE/3/DS/previousYearPaper/1000_exam.pdf" := by
  decide

/-- C8 (amended): for every successful upload, the storage path recorded in
the FileRecord and holding the bytes in the Blob Store is
department/semester/subject/contentType/ followed by the segment module{m}/
exactly when a non-empty module value m was supplied (regardless of the
contentType), ending in timestamp_filename. -/
theorem adminUpload_path (now : Nat) (isoNow : String) (blobErr : Bool)
    (f : UFile) (department semester subject contentType moduleField : Option String)
    (st st2 : ServerState) (record : FileRecord)
    (h : adminUploadHandler now isoNow blobErr (some f) department semester subject
        contentType moduleField st = (UploadResult.ok record, st2)) :
    record.path =
      (department.getD "") ++ "/" ++ (semester.getD "") ++ "/" ++
        (subject.getD "") ++ "/" ++ (contentType.getD "") ++ "/" ++
        (if truthy moduleField then "module" ++ (moduleField.getD "") ++ "/" else "") ++
        toString now ++ "_" ++ f.name ∧
    kvGet st2.blobs record.path = some f.content := by
  simp only [adminUploadHandler] at h
  split at h
  · simp at h
  · split at h
    · simp at h
    · split at h
      · simp at h
      · simp only [Prod.mk.injEq, UploadResult.ok.injEq] at h
        obtain ⟨hrec, hst⟩ := h
        constructor
        · rw [← hrec]
          simp [buildFilePath]
        · rw [← hrec, ← hst]
          by_cases hmem : (subject.getD "") ∈
              ((kvGet st.subjects
                (subjectsKey (department.getD "") (semester.getD ""))).getD []) <;>
            simp [hmem, kvGet_kvSet_self]

/-- C8 (amended) witness. -/
theorem adminUpload_path_witness :
    noteRec.path =
      "CSE" ++ "/" ++ "3" ++ "/" ++ "DS" ++ "/" ++ "notes" ++ "/" ++
        (if truthy (some "3") then "module" ++ "3" ++ "/" else "") ++
        toString 5 ++ "_" ++ "n.pdf" ∧
    kvGet noteState.blobs noteRec.path = some "B" := by
  exact adminUpload_path 5 "T" false { name := "n.pdf", content := "B" }
    (some "CSE") (some "3") (some "DS") (some "notes") (some "3") emptyState
    noteState noteRec (by decide)

/-- `notes[k].push` throws (returns none) when `k` is not a key of the
notes mapping. -/
theorem notesPush_none (k : String) (r : FileRecord)
    (ns : List (String × List FileRecord))
    (h : ns.all (fun p => !(p.1 = k)) = true) :
    notesPush k r ns = none := by
  induction ns with
  | nil => rfl
  | cons p rest ih =>
      obtain ⟨k', l⟩ := p
      simp only [List.all_cons, Bool.and_eq_true] at h
      have hk : ¬ (k' = k) := by simpa using h.1
      simp [notesPush, hk, ih h.2]

/-- C10 counterexample: uploading notes with module 6 against the empty
state returns a 500 after the blob bytes are written, but the Catalog Store
is not left unchanged: the SubjectList key was written before the failing
append. -/
theorem adminUpload_unknown_module_counterexample :
    (adminUploadHandler 1000 "T" false (some { name := "a.pdf", content := "B" })
        (some "CSE") (some "3") (some "DS") (some "notes") (some "6") emptyState).1 =
      UploadResult.serverError ∧
    (adminUploadHandler 1000 "T" false (some { name := "a.pdf", content := "B" })
        (some "CSE") (some "3") (some "DS") (some "notes") (some "6") emptyState).2.blobs =
      [("CSE/3/DS/notes/module6/1000_a.pdf", "B")] ∧
    (adminUploadHandler 1000 "T" false (some { name := "a.pdf", content := "B" })
        (some "CSE") (some "3") (some "DS") (some "notes") (some "6") emptyState).2.subjects ≠
      emptyState.subjects := by
  decide

/-- C10 (amended): for a notes upload whose module value m has no key
module{m} in the read (or default) catalog's notes mapping, the append
throws and the handler returns a 500 after the file bytes were written to
the Blob Store; the ContentCatalog map is left unchanged — an orphan blob —
though the subject-registration step has already run. -/
theorem adminUpload_unknown_module (now : Nat) (isoNow : String) (f : UFile)
    (department semester subject moduleField : Option String) (st : ServerState)
    (hd : truthy department = true) (hs : truthy semester = true)
    (hj : truthy subject = true) (hm : truthy moduleField = true)
    (hkey : (((kvGet st.contents (contentKey (department.getD "") (semester.getD "")
          (subject.getD ""))).getD defaultCatalog).notes).all
        (fun p => !(p.1 = "module" ++ moduleField.getD "")) = true) :
    (adminUploadHandler now isoNow false (some f) department semester subject
        (some "notes") moduleField st).1 = UploadResult.serverError ∧
    (adminUploadHandler now isoNow false (some f) department semester subject
        (some "notes") moduleField st).2.contents = st.contents ∧
    (adminUploadHandler now isoNow false (some f) department semester subject
        (some "notes") moduleField st).2.blobs =
      kvSet st.blobs
        (buildFilePath (department.getD "") (semester.getD "") (subject.getD "")
          "notes" moduleField now f.name) f.content := by
  have hpush : ∀ r : FileRecord,
      notesPush ("module" ++ moduleField.getD "") r
        ((kvGet st.contents (contentKey (department.getD "") (semester.getD "")
          (subject.getD ""))).getD defaultCatalog).notes = none :=
    fun r => notesPush_none ("module" ++ moduleField.getD "") r _ hkey
  by_cases hmem : (subject.getD "") ∈
      ((kvGet st.subjects
        (subjectsKey (department.getD "") (semester.getD ""))).getD []) <;>
    refine ⟨?_, ?_, ?_⟩ <;>
      simp [adminUploadHandler, dispatchRecord, buildFilePath, hd, hs, hj, hm,
        hmem, hpush, truthy_none, truthy_some]

/-- C10 (amended) witness. -/
theorem adminUpload_unknown_module_witness :
    (adminUploadHandler 1000 "T" false (some { name := "a.pdf", content := "B" })
        (some "CSE") (some "3") (some "DS") (some "notes") (some "6") emptyState).1 =
      UploadResult.serverError ∧
    (adminUploadHandler 1000 "T" false (some { name := "a.pdf", content := "B" })
        (some "CSE") (some "3") (some "DS") (some "notes") (some "6") emptyState).2.contents =
      emptyState.contents ∧
    (adminUploadHandler 1000 "T" false (some { name := "a.pdf", content := "B" })
        (some "CSE") (some "3") (some "DS") (some "notes") (some "6") emptyState).2.blobs =
      kvSet emptyState.blobs
        (buildFilePath "CSE" "3" "DS" "notes" (some "6") 1000 "a.pdf") "B" := by
  exact adminUpload_unknown_module 1000 "T" { name := "a.pdf", content := "B" }
    (some "CSE") (some "3") (some "DS") (some "6") emptyState
    rfl rfl rfl rfl (by decide)
